import Mathlib

/-!
Shallow embedding of the rust-irc-server repository (lazau/rust-irc-server).

Strings are modelled as lists of characters (`List Char`); the repository's
protocol inputs are ASCII, so Rust byte indices and character indices agree.
Byte buffers (for the codec) are modelled as lists of natural numbers.

Rust panics (assert!, unimplemented!, unreachable!) are modelled explicitly by
dedicated result constructors, and the possible divergence of
`Request::from_str`'s parameter loop is modelled with fuel: the fuel-indexed
loop returns `none` when the fuel runs out, so an input on which the loop
returns `none` for every fuel is an input on which the Rust loop runs forever.
-/

namespace IrcServer

/-- Embeds `next_token` from src/service/messages/parser.rs (lines 48-56):
splits at the first space, returning the text before it and, when a space
exists, the text after it.  The source returns the pair `(s, "")` when there
is no space; here the second component is an `Option` so that callers that
need to distinguish "no space" from "space at the very end" (the inlined
splitting in `parse_syntax`, src/parser/mod.rs) can share this definition;
`next_token_pair` below recovers the source's exact pair. -/
def next_token : List Char → List Char × Option (List Char)
  | [] => ([], none)
  | c :: cs =>
    if c = ' ' then ([], some cs)
    else
      let p := next_token cs
      (c :: p.1, p.2)

/-- Exact pair returned by the source's `next_token`: `(s, "")` when no space. -/
def next_token_pair (s : List Char) : List Char × List Char :=
  let (t, r) := next_token s
  (t, r.getD [])

/-- ParseErrorKind from src/service/messages/parser.rs (lines 5-15). -/
inductive ParseErrorKind where
  | NoCommand
  | UnrecognizedCommand
  | NeedMoreParams
  | TooManyParams
  | ParseIntError
  | NotARequest
  | NotAResponse
  | Other
deriving DecidableEq, Repr

namespace Requests

/-- Requests::Nick from src/service/messages/commands/requests.rs. -/
structure Nick where
  nickname : List Char
deriving DecidableEq, Repr

/-- Requests::Pass from src/service/messages/commands/requests.rs. -/
structure Pass where
  password : List Char
deriving DecidableEq, Repr

/-- Requests::User from src/service/messages/commands/requests.rs (the `mode`
field is a String there). -/
structure User where
  username : List Char
  mode : List Char
  unused : List Char
  realname : List Char
deriving DecidableEq, Repr

/-- Requests::Server from src/service/messages/commands/requests.rs. -/
structure Server where
  servername : List Char
  hopcount : Nat
  token : Nat
  info : List Char
deriving DecidableEq, Repr

/-- Requests::Oper from src/service/messages/commands/requests.rs. -/
structure Oper where
  name : List Char
  password : List Char
deriving DecidableEq, Repr

/-- Requests::Quit from src/service/messages/commands/requests.rs. -/
structure Quit where
  message : Option (List Char)
deriving DecidableEq, Repr

/-- Requests::JoinChannels from src/service/messages/commands/requests.rs. -/
inductive JoinChannels where
  | PartAll
  | Channels (channels : List (List Char))
  | KeyedChannels (channels : List (List Char × List Char))
deriving DecidableEq, Repr

/-- Requests::Join from src/service/messages/commands/requests.rs. -/
structure Join where
  join : JoinChannels
deriving DecidableEq, Repr

/-- Requests::Part from src/service/messages/commands/requests.rs. -/
structure Part where
  channels : List (List Char)
  message : Option (List Char)
deriving DecidableEq, Repr

/-- Requests::Mode from src/service/messages/commands/requests.rs. -/
structure Mode where
  target : List Char
  mode_string : Option (List Char)
  mode_args : Option (List Char)
deriving DecidableEq, Repr

/-- Requests::Ping from src/service/messages/commands/requests.rs. -/
structure Ping where
  originator : List Char
  target : Option (List Char)
deriving DecidableEq, Repr

/-- Requests::Pong from src/service/messages/commands/requests.rs. -/
structure Pong where
  originator : List Char
  target : Option (List Char)
deriving DecidableEq, Repr

/-- Requests::Privmsg from src/service/messages/commands/requests.rs. -/
structure Privmsg where
  targets : List (List Char)
  message : List Char
deriving DecidableEq, Repr

end Requests

/-- Request catalog variants relevant here, each carrying its struct from
src/service/messages/commands/requests.rs.  The enum itself lives in a module
not under src/; its variants are modelled from the parser's arms (including
the commented-out catalog, src/service/messages/parser.rs lines 211-244) and
from the constructors used in src/service/connection.rs.  Only
NICK/PASS/USER/SERVER/OPER/QUIT can be produced by the `FromStr` impl; the
others are needed for the serializer and the connection layer. -/
inductive Request where
  | NICK (r : Requests.Nick)
  | PASS (r : Requests.Pass)
  | USER (r : Requests.User)
  | SERVER (r : Requests.Server)
  | OPER (r : Requests.Oper)
  | QUIT (r : Requests.Quit)
  | JOIN (r : Requests.Join)
  | PART (r : Requests.Part)
  | MODE (r : Requests.Mode)
  | PING (r : Requests.Ping)
  | PONG (r : Requests.Pong)
  | PRIVMSG (r : Requests.Privmsg)
deriving DecidableEq, Repr

/-- Result of one run of `Request::from_str`'s command match: a request, a
ParseError of the given kind, or a Rust panic (unimplemented!). -/
inductive POutcome where
  | ok (r : Request)
  | err (k : ParseErrorKind)
  | panicked
deriving DecidableEq, Repr

/-- Embeds Rust's `str::parse::<u64>`: an optional leading plus sign followed
by one or more ASCII digits, with the value below 2^64. -/
def parseU64 (l : List Char) : Option Nat :=
  let digits := match l with
    | '+' :: rest => rest
    | _ => l
  if digits = [] then none
  else if digits.all (fun c => c.isDigit) then
    let v := digits.foldl (fun acc c => acc * 10 + (c.toNat - 48)) 0
    if v < 2 ^ 64 then some v else none
  else none

/-- Embeds the parameter loop of `Request::from_str`
(src/service/messages/parser.rs lines 142-161), indexed by fuel; `none` means
the fuel ran out, i.e. the Rust loop has not terminated within `fuel`
iterations.  The loop body is translated verbatim, including the source's use
of `next_token(s)` on the whole input `s` rather than on the loop variable
`remainder`, which is why the loop can run forever. -/
def paramLoopFuel (s : List Char) : Nat → List Char → List (List Char) →
    Option (List (List Char))
  | 0, _, _ => none
  | fuel + 1, rem, params =>
    if rem.length = 0 then some params
    else if rem.head? = some ':' then
      if rem.length = 1 then some params else some (params ++ [rem.tail])
    else
      let np := (next_token_pair s).1
      let r := (next_token_pair s).2
      paramLoopFuel s fuel r (if np.length = 0 then params else params ++ [np])

/-- Embeds `verify_at_least_params` (src/service/messages/parser.rs lines
124-133) as the predicate it checks: the parameter list has at least
`required` entries. -/
def verify_at_least_params (p : List (List Char)) (required : Nat) : Bool :=
  decide (required ≤ p.length)

/-- ASCII uppercasing of a token, embedding `to_uppercase()` for the ASCII
command tokens this protocol uses. -/
def toUpperL (l : List Char) : List Char :=
  l.map Char.toUpper

/-- Embeds the command match of `Request::from_str`
(src/service/messages/parser.rs lines 163-250) on an already-extracted command
token and parameter list.  The USER arm panics whenever it reaches
`params[1].parse::<UserMode>()` because `UserMode`'s `FromStr`
(lines 551-556) is `unimplemented!()`; the SERVER arm evaluates its struct
fields in order, so a non-numeric hopcount returns ParseIntError while a
numeric one reaches the `token: unimplemented!()` field and panics. -/
def matchCommand (command : List Char) (params : List (List Char)) : POutcome :=
  let c := toUpperL command
  if c = "NICK".toList then
    if verify_at_least_params params 1 then
      .ok (.NICK ⟨params.getD 0 []⟩)
    else .err .NeedMoreParams
  else if c = "PASS".toList then
    if verify_at_least_params params 1 then
      .ok (.PASS ⟨params.getD 0 []⟩)
    else .err .NeedMoreParams
  else if c = "USER".toList then
    if verify_at_least_params params 4 then
      .panicked
    else .err .NeedMoreParams
  else if c = "SERVER".toList then
    if verify_at_least_params params 3 then
      match parseU64 (params.getD 1 []) with
      | some _ => .panicked
      | none => .err .ParseIntError
    else .err .NeedMoreParams
  else if c = "OPER".toList then
    if verify_at_least_params params 2 then
      .ok (.OPER ⟨params.getD 0 [], params.getD 1 []⟩)
    else .err .NeedMoreParams
  else if c = "QUIT".toList then
    if params.length = 0 then .ok (.QUIT ⟨none⟩)
    else .ok (.QUIT ⟨some (params.getD 0 [])⟩)
  else .err .UnrecognizedCommand

/-- Embeds `Request::from_str` (src/service/messages/parser.rs lines 135-252)
with fuel for the parameter loop: `none` means the loop has not terminated
within `fuel` iterations (and therefore, if that holds for every fuel, the
Rust function never returns on this input). -/
def requestFromStrFuel (fuel : Nat) (s : List Char) : Option POutcome :=
  let command := (next_token_pair s).1
  let rem := (next_token_pair s).2
  match paramLoopFuel s fuel rem [] with
  | none => none
  | some params => some (matchCommand command params)

/-- A parse of line `l` returns outcome `o` if it does so for some fuel. -/
def returnsOutcome (l : List Char) (o : POutcome) : Prop :=
  ∃ fuel, requestFromStrFuel fuel l = some o

/-- The parse of line `l` runs forever: no amount of fuel makes it return. -/
def neverReturns (l : List Char) : Prop :=
  ∀ fuel, requestFromStrFuel fuel l = none

/-! ## Serializer (Display impls in src/service/messages/commands/requests.rs)

Serialization that panics (a failed assert! or an unimplemented! body) is
modelled as `none`. -/

/-- Embeds `impl Display for Part` (requests.rs lines 383-395): asserts the
channel list is a singleton, then writes "PART {channel}" and, when a part
message is present, " :{message}". -/
def serialize_part (p : Requests.Part) : Option (List Char) :=
  match p.channels with
  | [c] =>
    some ("PART ".toList ++ c ++
      (match p.message with
       | some m => " :".toList ++ m
       | none => []))
  | _ => none

/-- Embeds `impl Display for Pong` (requests.rs lines 578-586): writes
"PONG {originator}" and, when a target is present, " :{target}". -/
def serialize_pong (p : Requests.Pong) : List Char :=
  "PONG ".toList ++ p.originator ++
    (match p.target with
     | some t => " :".toList ++ t
     | none => [])

/-- Embeds `impl Display for Privmsg` (requests.rs lines 515-520): asserts a
single target, then writes "PRIVMSG {target} {message}". -/
def serialize_privmsg (p : Requests.Privmsg) : Option (List Char) :=
  match p.targets with
  | [t] => some ("PRIVMSG ".toList ++ t ++ [' '] ++ p.message)
  | _ => none

/-- Embeds `impl Display for Mode` (requests.rs lines 397-408): writes
"MODE {target}", then " {mode_string}" and " :{mode_args}" when present. -/
def serialize_mode (m : Requests.Mode) : List Char :=
  "MODE ".toList ++ m.target ++
    (match m.mode_string with
     | some s => ' ' :: s
     | none => []) ++
    (match m.mode_args with
     | some a => " :".toList ++ a
     | none => [])

/-- Embeds `impl Display for Join` (requests.rs lines 359-381): PartAll and
KeyedChannels log an error and write nothing; Channels writes
"JOIN {channels joined by commas}". -/
def serialize_join (j : Requests.Join) : Option (List Char) :=
  match j.join with
  | .PartAll => some []
  | .KeyedChannels _ => some []
  | .Channels chans => some ("JOIN ".toList ++ List.intercalate [','] chans)

/-- Serialization of a request via the Display impls: PART, PONG, PRIVMSG,
MODE and JOIN have working impls (PART and PRIVMSG panic unless the
channel/target list is a singleton); the Display impls of all other request
structs are unimplemented! and panic after writing the command word, so their
serialization is modelled as `none`. -/
def serializeRequest : Request → Option (List Char)
  | .PART p => serialize_part p
  | .PONG p => some (serialize_pong p)
  | .PRIVMSG p => serialize_privmsg p
  | .MODE m => some (serialize_mode m)
  | .JOIN j => serialize_join j
  | .PING _ => none
  | .NICK _ => none
  | .PASS _ => none
  | .USER _ => none
  | .SERVER _ => none
  | .OPER _ => none
  | .QUIT _ => none

/-- Round-trip stability of a line through Request::from_str and the Display
impls: some fuel makes the parse return a request whose serialization is the
original line. -/
def roundTrips (l : List Char) : Prop :=
  ∃ fuel r, requestFromStrFuel fuel l = some (POutcome.ok r) ∧
    serializeRequest r = some l

/-! ## Line grammar (src/parser/mod.rs) -/

/-- Errors of `parse_syntax` (src/parser/mod.rs lines 755-833), one
constructor per distinct error string in the source. -/
inductive LineError where
  /-- bad command length -/
  | badLength
  /-- command doesn't end with CR LF -/
  | noCrlf
  /-- only command prefix given -/
  | onlyCmdPfx
  /-- no command specified -/
  | noCommand
deriving DecidableEq, Repr

/-- Result of `parse_syntax`: the source's `Syntax` struct (an optional
sender prefix `pfx`, the command token, and the parameter list). -/
structure RawMessage where
  pfx : Option (List Char)
  command : List Char
  params : List (List Char)
deriving DecidableEq, Repr

/-- Whitespace predicate of Rust's trim_right, restricted to the code points
that can appear in this protocol's ASCII lines (space, tab, line feed,
vertical tab, form feed, carriage return). -/
def rust_is_whitespace (c : Char) : Bool :=
  c.toNat = 32 ∨ c.toNat = 9 ∨ c.toNat = 10 ∨ c.toNat = 11 ∨ c.toNat = 12 ∨
    c.toNat = 13

/-- Embeds `input.trim_right()`: removes trailing whitespace. -/
def trim_right (l : List Char) : List Char :=
  (l.reverse.dropWhile rust_is_whitespace).reverse

/-- Embeds the parameter loop of `parse_syntax` (src/parser/mod.rs lines
794-818) on the remainder after the command token.  Unlike the loop in
Request::from_str, this one advances `remainder` correctly and terminates.
The source splits the remainder at its first space per iteration; this
embedding walks the same characters one at a time so that the recursion is
structural.  The first argument is the token in progress (`none` at a token
boundary, i.e. at the start of an iteration of the source's loop): at a
boundary a leading ':' takes the rest of the line as the final parameter
(dropped when it is empty, with a warning) and a space is the empty token
from consecutive delimiters (skipped, with a warning); inside a token a space
pushes the token (`remainder[0..idx]`) and returns to a boundary, and the end
of input pushes the token in progress (the no-space case pushes the whole
remainder). -/
def split_params_go : Option (List Char) → List Char → List (List Char)
  | some acc, [] => [acc]
  | none, [] => []
  | some acc, c :: cs =>
    if c = ' ' then acc :: split_params_go none cs
    else split_params_go (some (acc ++ [c])) cs
  | none, c :: cs =>
    if c = ':' then (if cs.isEmpty then [] else [cs])
    else if c = ' ' then split_params_go none cs
    else split_params_go (some [c]) cs

/-- Entry point of the parameter loop: no token is in progress. -/
def split_params (rem : List Char) : List (List Char) :=
  split_params_go none rem

/-- Embeds the command extraction and parameter loop of `parse_syntax` after
the prefix has been handled: an empty remainder is "no command specified";
otherwise the text up to the first space (or the whole remainder) is the
command and the rest is split into parameters. -/
def parse_after_pfx (pfx : Option (List Char)) (rem : List Char) :
    Except LineError RawMessage :=
  if rem.length < 1 then .error .noCommand
  else
    match next_token rem with
    | (tok, some rest) => .ok ⟨pfx, tok, split_params rest⟩
    | (_, none) => .ok ⟨pfx, rem, []⟩

/-- Embeds `parse_syntax` (src/parser/mod.rs lines 755-833): length bounds
(2 to 512 characters including the terminator), CRLF terminator check,
trim_right, then prefix extraction when the line starts with ':' — the source
stores `remainder[0..idx]`, i.e. the token up to the first space INCLUDING
the leading colon — followed by command and parameters. -/
def parseLine (input : List Char) : Except LineError RawMessage :=
  if input.length < 2 ∨ 512 < input.length then .error .badLength
  else if ¬ (['\r', '\n'].isSuffixOf input) then .error .noCrlf
  else if (trim_right input).head? = some ':' then
    match next_token (trim_right input) with
    | (_, none) => .error .onlyCmdPfx
    | (tok, some rest) => parse_after_pfx (some tok) rest
  else parse_after_pfx none (trim_right input)

/-! ## Codec (src/service/codec.rs) -/

/-- Embeds the scan loop of `Utf8CrlfCodec::decode` (codec.rs lines 29-35):
walks the buffer with its position, returning the first position `pos` with
`pos > 1`, byte 0x0A at `pos` and byte 0x0D at `pos - 1`.  Because of the
`pos > 1` guard, a CRLF whose line feed sits at position 0 or 1 is never
found. -/
def crlf_scan (src : List Nat) : Nat → List Nat → Option Nat
  | _, [] => none
  | pos, c :: rest =>
    if 1 < pos ∧ c = 10 ∧ src.getD (pos - 1) 0 = 13 then some pos
    else crlf_scan src (pos + 1) rest

/-- Position of the first detected CRLF line feed in the buffer. -/
def crlf_pos (src : List Nat) : Option Nat :=
  crlf_scan src 0 src

/-- Decoder outcome: Ok(None) ("need more data") or Ok(Some(line bytes)).
The UTF-8 conversion the source applies to the extracted bytes afterwards
does not affect how many bytes are consumed from the buffer. -/
inductive DecodeOut where
  | needMore
  | line (bytes : List Nat)
deriving DecidableEq, Repr

/-- Embeds `Utf8CrlfCodec::decode` (codec.rs lines 28-54) at the byte level:
when no CRLF is found the buffer is untouched; when one is found at `pos`,
`split_to(pos + 1)` removes the first `pos + 1` bytes and the returned line is
the first `pos - 1` of them.  Returns the outcome and the buffer contents
after the call. -/
def codec_decode (src : List Nat) : DecodeOut × List Nat :=
  match crlf_pos src with
  | none => (.needMore, src)
  | some pos => (.line ((src.take (pos + 1)).take (pos - 1)), src.drop (pos + 1))

/-- Embeds `Utf8CrlfCodec::encode` (codec.rs lines 14-21): appends each
outbound line followed by CRLF to the destination buffer. -/
def codec_encode (items : List (List Nat)) (dst : List Nat) : List Nat :=
  items.foldl (fun acc m => acc ++ m ++ [13, 10]) dst

/-! ## Users, channels and the server registry

src/service/user.rs, src/service/channel.rs and src/service/server.rs are not
under src/; only their callers (src/service/connection.rs) are.  The entities
and registry operations below are therefore modelled from the spec (§3, §4.4),
as marked on each definition. -/

/-- UserIdentifier: the four registration fields (§3); the field shapes are
fixed by `UserIdentifier::new(nickname, username, realname, hostname)` as
called in src/service/connection.rs lines 229-234. -/
structure UserIdentifier where
  nickname : List Char
  username : List Char
  realname : List Char
  hostname : List Char
deriving DecidableEq, Repr

/-- Modelled from the spec: user.rs is not under src/.  The prefix token
identifies the origin of a message (glossary); its exact formatting is not
fixed by the sources under src/, so the origin is identified by nickname. -/
def UserIdentifier.as_prefix (i : UserIdentifier) : List Char :=
  i.nickname

/-- Modelled from the spec: user.rs is not under src/.  Recognized user mode
flag characters (§4.3 requires a set of recognized flags; RFC 1459 user modes
are invisible, server-notices, wallops, operator). -/
inductive UserMode where
  | i
  | s
  | w
  | o
deriving DecidableEq, Repr

/-- Modelled from the spec: user.rs is not under src/.  Parsing one mode flag
character (the FromStr used by the MODE arm, connection.rs line 454); an
unrecognized character is an error. -/
def userModeOfChar : Char → Option UserMode
  | 'i' => some .i
  | 's' => some .s
  | 'w' => some .w
  | 'o' => some .o
  | _ => none

/-- SetMode as used by the MODE arm (connection.rs lines 442-450): add or
remove the listed flags. -/
inductive SetMode where
  | Add
  | Remove
deriving DecidableEq, Repr

/-- Modelled from the spec: user.rs is not under src/.  A User per §3:
identifier, current mode flags and current channel memberships (the mailbox
handle is not modelled). -/
structure User where
  ident : UserIdentifier
  modes : List UserMode
  channels : List (List Char)
deriving DecidableEq, Repr

/-- Modelled from the spec: `User::new(&ident, server, tx)` (connection.rs
line 246) constructs the fresh user for a just-registered connection: no
modes, no memberships. -/
def User.new (ident : UserIdentifier) : User :=
  ⟨ident, [], []⟩

/-- Modelled from the spec: membership update performed by `user.join`
(connection.rs line 560). -/
def User.joinCh (u : User) (name : List Char) : User :=
  if u.channels.any (fun c => c = name) then u
  else { u with channels := u.channels ++ [name] }

/-- Modelled from the spec: membership update performed by `user.part`
(connection.rs line 585). -/
def User.partCh (u : User) (name : List Char) : User :=
  { u with channels := u.channels.filter (fun c => ¬ c = name) }

/-- Flag character of a user mode. -/
def modeChar : UserMode → Char
  | .i => 'i'
  | .s => 's'
  | .w => 'w'
  | .o => 'o'

/-- Modelled from the spec: channel record per §3 (identifier/name, optional
topic, optional key, ban list, member set in insertion order). -/
structure Channel where
  name : List Char
  key : Option (List Char)
  topic : Option (List Char)
  members : List UserIdentifier
  bans : List UserIdentifier
deriving DecidableEq, Repr

/-- ServerError variants matched by `Connection::part` (connection.rs lines
595-614). -/
inductive ServerError where
  | NoSuchChannel
  | NotOnChannel
deriving DecidableEq, Repr

/-- ChannelError variants matched by `produce_join_messages` (connection.rs
lines 667-688). -/
inductive ChannelError where
  | BadKey
  | Banned
  | AlreadyMember
deriving DecidableEq, Repr

/-- Modelled from the spec: the registry per §3/§4.4 — nickname-keyed users
and name-keyed channels (hostname and creation time live in SharedState
here). -/
structure ServerState where
  users : List UserIdentifier
  channels : List Channel
deriving DecidableEq, Repr

/-- The nickname is already claimed in the registry. -/
def nickInUse (srv : ServerState) (n : List Char) : Bool :=
  srv.users.any (fun u => u.nickname = n)

/-- Modelled from the spec: `add_user(identifier, mailbox)` (§4.4) fails if
the nickname is already present, otherwise inserts a new entry. -/
def server_add_user (srv : ServerState) (ident : UserIdentifier) :
    Except Unit ServerState :=
  if nickInUse srv ident.nickname then .error ()
  else .ok { srv with users := srv.users ++ [ident] }

/-- Channel lookup by name. -/
def findChannel (srv : ServerState) (name : List Char) : Option Channel :=
  srv.channels.find? (fun c => c.name = name)

/-- Modelled from the spec: one channel of `part` (§4.4) — NoSuchChannel if
unknown, NotOnChannel if not a member, else remove the member and delete the
channel when its member count reaches zero. -/
def server_part_one (srv : ServerState) (ident : UserIdentifier)
    (name : List Char) : Option ServerError × ServerState :=
  match findChannel srv name with
  | none => (some .NoSuchChannel, srv)
  | some ch =>
    if ch.members.any (fun m => m = ident) then
      let members' := ch.members.filter (fun m => ¬ m = ident)
      if members'.isEmpty then
        (none, { srv with channels := srv.channels.filter (fun c => ¬ c.name = name) })
      else
        (none, { srv with channels := srv.channels.map (fun c =>
          if c.name = name then { c with members := members' } else c) })
    else (some .NotOnChannel, srv)

/-- Modelled from the spec: `part(identifier, channels, message)` (§4.4),
one result per channel, processed in order.  The part message is delivered
through mailboxes, which are not modelled. -/
def server_part (srv : ServerState) (ident : UserIdentifier)
    (channels : List (List Char)) : List (Option ServerError) × ServerState :=
  channels.foldl
    (fun acc name =>
      let r := server_part_one acc.2 ident name
      (acc.1 ++ [r.1], r.2))
    ([], srv)

/-- Modelled from the spec: one channel of `join` (§4.4) — create the channel
(no key, no topic, caller sole member) when unknown; else validate the key
(mismatch is BadKey), the ban list (match is Banned) and existing membership
(AlreadyMember); on success add the member and return the topic plus the
member list as it stands at the moment of insertion. -/
def server_join_one (srv : ServerState) (ident : UserIdentifier)
    (name : List Char) (key : Option (List Char)) :
    Except ChannelError (Option (List Char) × List UserIdentifier) × ServerState :=
  match findChannel srv name with
  | none =>
    (.ok (none, [ident]),
     { srv with channels := srv.channels ++ [⟨name, none, none, [ident], []⟩] })
  | some ch =>
    if ¬ ch.key = key then (.error .BadKey, srv)
    else if ch.bans.any (fun b => b = ident) then (.error .Banned, srv)
    else if ch.members.any (fun m => m = ident) then (.error .AlreadyMember, srv)
    else
      let members' := ch.members ++ [ident]
      (.ok (ch.topic, members'),
       { srv with channels := srv.channels.map (fun c =>
         if c.name = name then { c with members := members' } else c) })

/-- Modelled from the spec: `join(identifier, [(channel, key?)])` (§4.4), one
result per requested channel, processed in order. -/
def server_join (srv : ServerState) (ident : UserIdentifier)
    (channels : List (List Char × Option (List Char))) :
    List (Except ChannelError (Option (List Char) × List UserIdentifier)) ×
      ServerState :=
  channels.foldl
    (fun acc p =>
      let r := server_join_one acc.2 ident p.1 p.2
      (acc.1 ++ [r.1], r.2))
    ([], srv)

/-- Modelled from the spec: `send(sender, targets, message)` (§4.4) — for a
single known nickname, deliver to that user; for a known channel, deliver to
every member except the sender; unknown targets are an open question in the
spec and deliver to nobody here.  Returns the recipients. -/
def server_send (srv : ServerState) (sender : UserIdentifier)
    (targets : List (List Char)) : List UserIdentifier :=
  match targets with
  | [t] =>
    match srv.users.find? (fun u => u.nickname = t) with
    | some u => [u]
    | none =>
      match findChannel srv t with
      | some ch => ch.members.filter (fun m => ¬ m = sender)
      | none => []
  | _ => []

/-! ## Connection state machine (src/service/connection.rs)

The Responses structs live in a module not under src/; their field shapes are
modelled from the constructors used in src/service/connection.rs. -/

namespace Responses

/-- Responses::Welcome as constructed in connection.rs lines 251-264. -/
structure Welcome where
  nick : List Char
  message : List Char
deriving DecidableEq, Repr

/-- Responses::YourHost as constructed in connection.rs lines 268-281. -/
structure YourHost where
  nick : List Char
  message : List Char
deriving DecidableEq, Repr

/-- Responses::Created as constructed in connection.rs lines 285-297. -/
structure Created where
  nick : List Char
  message : List Char
deriving DecidableEq, Repr

/-- Responses::MyInfo, used via MyInfo::default() (connection.rs line 301). -/
structure MyInfo where
deriving DecidableEq, Repr

/-- Responses::NOTREGISTERED, used via default() (connection.rs line 386). -/
structure NOTREGISTERED where
deriving DecidableEq, Repr

/-- Responses::NICKNAMEINUSE (connection.rs line 307). -/
structure NICKNAMEINUSE where
  nick : List Char
deriving DecidableEq, Repr

/-- Responses::AlreadyRegistered (connection.rs line 519). -/
structure AlreadyRegistered where
  nick : List Char
deriving DecidableEq, Repr

/-- Responses::UsersDontMatch (connection.rs line 433). -/
structure UsersDontMatch where
  nick : List Char
deriving DecidableEq, Repr

/-- Responses::UModeUnknownFlag (connection.rs line 439). -/
structure UModeUnknownFlag where
  nick : List Char
deriving DecidableEq, Repr

/-- Responses::NoSuchChannel (connection.rs lines 599-602). -/
structure NoSuchChannel where
  nick : List Char
  channel : List Char
deriving DecidableEq, Repr

/-- Responses::NotOnChannel (connection.rs lines 608-611). -/
structure NotOnChannel where
  nick : List Char
  channel : List Char
deriving DecidableEq, Repr

/-- Responses::BadChannelKey (connection.rs lines 670-673). -/
structure BadChannelKey where
  nick : List Char
  channel : List Char
deriving DecidableEq, Repr

/-- Responses::BannedFromChan (connection.rs lines 676-679). -/
structure BannedFromChan where
  nick : List Char
  channel : List Char
deriving DecidableEq, Repr

/-- Responses::Topic (connection.rs lines 639-643). -/
structure Topic where
  nick : List Char
  channel : List Char
  topic : List Char
deriving DecidableEq, Repr

/-- Responses::NamReply (connection.rs lines 648-656): members is a list of
(per-member flag string, nickname) pairs. -/
structure NamReply where
  nick : List Char
  symbol : List Char
  channel : List Char
  members : List (List Char × List Char)
deriving DecidableEq, Repr

/-- Responses::EndOfNames (connection.rs lines 660-663). -/
structure EndOfNames where
  nick : List Char
  channel : List Char
deriving DecidableEq, Repr

end Responses

/-- The Command enum of src/service/messages/commands (its module is not
under src/): exactly the variants constructed or matched in
src/service/connection.rs. -/
inductive Command where
  | JOIN (r : Requests.Join)
  | MODE (r : Requests.Mode)
  | NICK (r : Requests.Nick)
  | PART (r : Requests.Part)
  | PING (r : Requests.Ping)
  | PONG (r : Requests.Pong)
  | PRIVMSG (r : Requests.Privmsg)
  | USER (r : Requests.User)
  | QUIT (r : Requests.Quit)
  | RPL_WELCOME (r : Responses.Welcome)
  | RPL_YOURHOST (r : Responses.YourHost)
  | RPL_CREATED (r : Responses.Created)
  | RPL_MYINFO (r : Responses.MyInfo)
  | RPL_TOPIC (r : Responses.Topic)
  | RPL_NAMREPLY (r : Responses.NamReply)
  | RPL_ENDOFNAMES (r : Responses.EndOfNames)
  | ERR_NOTREGISTERED (r : Responses.NOTREGISTERED)
  | ERR_NICKNAMEINUSE (r : Responses.NICKNAMEINUSE)
  | ERR_ALREADYREGISTRED (r : Responses.AlreadyRegistered)
  | ERR_USERSDONTMATCH (r : Responses.UsersDontMatch)
  | ERR_UMODEUNKNOWNFLAG (r : Responses.UModeUnknownFlag)
  | ERR_NOSUCHCHANNEL (r : Responses.NoSuchChannel)
  | ERR_NOTONCHANNEL (r : Responses.NotOnChannel)
  | ERR_BADCHANNELKEY (r : Responses.BadChannelKey)
  | ERR_BANNEDFROMCHAN (r : Responses.BannedFromChan)
deriving DecidableEq, Repr

/-- Message as built and consumed by connection.rs: optional sender prefix
(source field name: prefix) and a command. -/
structure IRCMessage where
  pfx : Option (List Char)
  command : Command
deriving DecidableEq, Repr

/-- Modelled from the spec: `user.set_mode(&set, &modes)` (connection.rs line
465; user.rs is not under src/).  Valid mode changes are applied to the
user's mode set and acknowledged (§4.3); the acknowledgement is modelled as a
single MODE echo carrying the sign and the applied flags. -/
def User.set_mode (u : User) (set : SetMode) (ms : List UserMode) :
    List IRCMessage × User :=
  let modes' := ms.foldl
    (fun acc m =>
      match set with
      | .Add => if acc.any (fun x => x = m) then acc else acc ++ [m]
      | .Remove => acc.filter (fun x => ¬ x = m))
    u.modes
  let sign : Char := match set with
    | .Add => '+'
    | .Remove => '-'
  ([⟨none, .MODE ⟨u.ident.nickname, some (sign :: ms.map modeChar), none⟩⟩],
   { u with modes := modes' })

/-- Registration from connection.rs lines 54-71. -/
structure Registration where
  nickname : Option (List Char)
  username : Option (List Char)
  realname : Option (List Char)
  hostname : List Char
deriving DecidableEq, Repr

/-- Registration::new (connection.rs lines 62-71). -/
def Registration.new (hostname : List Char) : Registration :=
  ⟨none, none, none, hostname⟩

/-- ConnectionType from connection.rs lines 31-37. -/
inductive ConnectionType where
  | Registering (r : Registration)
  | Client (u : User)
  | Server
deriving DecidableEq, Repr

/-- Connection::registered (connection.rs lines 356-361). -/
def registered : ConnectionType → Bool
  | .Registering _ => false
  | _ => true

/-- Configuration fields read by the modelled operations
(src/configuration.rs; listen addresses and the queue length are used only by
the I/O layer). -/
structure Configuration where
  version : List Char
  network_name : List Char

/-- Template rendering (src/templates.rs is external per §6): opaque functions
from the supplied fields to the body text of the WELCOME/YOURHOST/CREATED
replies. -/
structure TemplateEngine where
  renderWelcome : List Char → List Char → List Char
  renderYourHost : List Char → List Char → List Char
  renderCreated : List Char → List Char

/-- SharedState fields read by connection.rs: server hostname, creation time
(already formatted, as try_register formats it before templating),
configuration and template engine. -/
structure SharedState where
  hostname : List Char
  created : List Char
  configuration : Configuration
  template_engine : TemplateEngine

/-- Where a Rust panic came from. -/
inductive PanicSite where
  /-- a failed assert! -/
  | assertFailed
  /-- unimplemented!() -/
  | unimplemented
  /-- unreachable!() -/
  | unreachableHit
deriving DecidableEq, Repr

/-- Result of processing one message: the reply list returned to the caller,
the connection state and registry afterwards, and the recipients of any
mailbox deliveries made through the registry's send — or a panic. -/
inductive Proc where
  | ok (replies : List IRCMessage) (conn : ConnectionType) (srv : ServerState)
      (sent : List UserIdentifier)
  | panicked (site : PanicSite)
deriving DecidableEq, Repr

/-- Embeds `Connection::try_register` (connection.rs lines 223-311): asserts
the connection is not registered; returns no replies while any of
nickname/username/realname is missing; otherwise attempts `add_user` — on
success the connection becomes a Client and the reply list is the fixed
four-message welcome burst (WELCOME, YOURHOST, CREATED, MYINFO); on failure a
single NICKNAMEINUSE reply is returned and both the connection state and the
registry are left unchanged. -/
def try_register (sh : SharedState) (srv : ServerState) (ct : ConnectionType) :
    Proc :=
  if registered ct then .panicked .assertFailed
  else match ct with
    | .Registering r =>
      match r.nickname, r.username, r.realname with
      | some n, some u, some rn =>
        let ident : UserIdentifier := ⟨n, u, rn, r.hostname⟩
        match server_add_user srv ident with
        | .ok srv' =>
          .ok
            [⟨none, .RPL_WELCOME
                ⟨n, sh.template_engine.renderWelcome sh.configuration.network_name n⟩⟩,
             ⟨none, .RPL_YOURHOST
                ⟨n, sh.template_engine.renderYourHost sh.hostname sh.configuration.version⟩⟩,
             ⟨none, .RPL_CREATED ⟨n, sh.template_engine.renderCreated sh.created⟩⟩,
             ⟨none, .RPL_MYINFO ⟨⟩⟩]
            (.Client (User.new ident)) srv' []
        | .error _ => .ok [⟨none, .ERR_NICKNAMEINUSE ⟨n⟩⟩] ct srv []
      | _, _, _ => .ok [] ct srv []
    | _ => .panicked .unreachableHit

/-- Embeds `Connection::add_registration_info` (connection.rs lines 313-354):
merges the supplied fields into the pending Registration; `none` models the
unreachable!() panic when the connection is not Registering. -/
def add_registration_info (ct : ConnectionType) (nickname username realname :
    Option (List Char)) : Option ConnectionType :=
  match ct with
  | .Registering reg =>
    some (.Registering
      ⟨if nickname.isSome then nickname else reg.nickname,
       if username.isSome then username else reg.username,
       if realname.isSome then realname else reg.realname,
       reg.hostname⟩)
  | _ => none

/-- Embeds `produce_join_messages` (connection.rs lines 622-691): on success a
JOIN echo, an optional RPL_TOPIC, an RPL_NAMREPLY over the member list and an
RPL_ENDOFNAMES; BadKey and Banned map to their numeric replies and
AlreadyMember is swallowed (logged only). -/
def produce_join_messages (ident : UserIdentifier) (name : List Char)
    (res : Except ChannelError (Option (List Char) × List UserIdentifier)) :
    List IRCMessage :=
  match res with
  | .ok (topic, users) =>
    [⟨some ident.as_prefix, .JOIN ⟨.Channels [name]⟩⟩] ++
      (match topic with
       | some t => [⟨none, .RPL_TOPIC ⟨ident.nickname, name, t⟩⟩]
       | none => []) ++
      [⟨none, .RPL_NAMREPLY
         ⟨ident.nickname, "=".toList, name,
          users.map (fun m => ([], m.nickname))⟩⟩,
       ⟨none, .RPL_ENDOFNAMES ⟨ident.nickname, name⟩⟩]
  | .error .BadKey => [⟨none, .ERR_BADCHANNELKEY ⟨ident.nickname, name⟩⟩]
  | .error .Banned => [⟨none, .ERR_BANNEDFROMCHAN ⟨ident.nickname, name⟩⟩]
  | .error .AlreadyMember => []

/-- Embeds `Connection::join` (connection.rs lines 542-565): one registry join
over all requested channels, then per channel the user's membership set is
updated on success and the join messages are produced. -/
def conn_join (u : User) (srv : ServerState)
    (channels : List (List Char × Option (List Char))) :
    List IRCMessage × User × ServerState :=
  let j := server_join srv u.ident channels
  let step := (j.1.zip channels).foldl
    (fun (acc : List IRCMessage × User) p =>
      let u' := match p.1 with
        | .ok _ => acc.2.joinCh p.2.1
        | .error _ => acc.2
      (acc.1 ++ produce_join_messages u'.ident p.2.1 p.1, u'))
    ([], u)
  (step.1, step.2, j.2)

/-- Embeds `Connection::part` (connection.rs lines 567-620): one registry part
over all channels, then per channel a PART echo (prefixed with the user's own
prefix, carrying the original optional part message) on success, or the
NOSUCHCHANNEL / NOTONCHANNEL numeric replies on failure. -/
def conn_part (u : User) (srv : ServerState) (channels : List (List Char))
    (message : Option (List Char)) : List IRCMessage × User × ServerState :=
  let pr := server_part srv u.ident channels
  let step := (pr.1.zip channels).foldl
    (fun (acc : List IRCMessage × User) p =>
      match p.1 with
      | none =>
        (acc.1 ++ [⟨some u.ident.as_prefix, .PART ⟨[p.2], message⟩⟩],
         acc.2.partCh p.2)
      | some .NoSuchChannel =>
        (acc.1 ++ [⟨none, .ERR_NOSUCHCHANNEL ⟨u.ident.nickname, p.2⟩⟩], acc.2)
      | some .NotOnChannel =>
        (acc.1 ++ [⟨none, .ERR_NOTONCHANNEL ⟨u.ident.nickname, p.2⟩⟩], acc.2))
    ([], u)
  (step.1, step.2, pr.2)

/-- Embeds `Connection::process_irc_message` (connection.rs lines 379-533).
JOIN and MODE start with the verify_registered! macro and reply
ERR_NOTREGISTERED when the connection is still Registering; the PART and
PRIVMSG arms do not, and instead reach `get_user`, whose
assert!(self.registered()) panics on a Registering connection (PRIVMSG first
panics on unimplemented!() when given more than one target).  NICK on a
registered connection is unimplemented!(); USER on a registered connection
replies ERR_ALREADYREGISTRED; PING answers PONG from the local hostname and is
unimplemented!() for a foreign target; every command not matched by an arm is
logged and produces no reply. -/
def process_irc_message (sh : SharedState) (srv : ServerState)
    (ct : ConnectionType) (req : IRCMessage) : Proc :=
  match req.command with
  | .JOIN jr =>
    if ¬ registered ct then .ok [⟨none, .ERR_NOTREGISTERED ⟨⟩⟩] ct srv []
    else match ct with
      | .Client u =>
        match jr.join with
        | .PartAll =>
          let r := conn_part u srv u.channels none
          .ok r.1 (.Client r.2.1) r.2.2 []
        | .Channels chans =>
          let r := conn_join u srv (chans.map (fun k => (k, none)))
          .ok r.1 (.Client r.2.1) r.2.2 []
        | .KeyedChannels chans =>
          let r := conn_join u srv (chans.map (fun p => (p.1, some p.2)))
          .ok r.1 (.Client r.2.1) r.2.2 []
      | _ => .panicked .unreachableHit
  | .MODE mr =>
    if ¬ registered ct then .ok [⟨none, .ERR_NOTREGISTERED ⟨⟩⟩] ct srv []
    else match ct with
      | .Client u =>
        match mr.mode_string with
        | none => .ok [] ct srv []
        | some mode =>
          if ¬ mr.target = u.ident.nickname then
            .ok [⟨none, .ERR_USERSDONTMATCH ⟨u.ident.nickname⟩⟩] ct srv []
          else if mode.length < 2 then
            .ok [⟨none, .ERR_UMODEUNKNOWNFLAG ⟨u.ident.nickname⟩⟩] ct srv []
          else
            let set? : Option SetMode :=
              if mode.head? = some '+' then some .Add
              else if mode.head? = some '-' then some .Remove
              else none
            match set? with
            | none => .ok [⟨none, .ERR_UMODEUNKNOWNFLAG ⟨u.ident.nickname⟩⟩] ct srv []
            | some st =>
              match mode.tail.mapM userModeOfChar with
              | none => .ok [⟨none, .ERR_UMODEUNKNOWNFLAG ⟨u.ident.nickname⟩⟩] ct srv []
              | some modes =>
                let r := User.set_mode u st modes
                .ok r.1 (.Client r.2) srv []
      | _ => .panicked .unreachableHit
  | .NICK nr =>
    if registered ct then .panicked .unimplemented
    else match add_registration_info ct (some nr.nickname) none none with
      | some ct' => try_register sh srv ct'
      | none => .panicked .unreachableHit
  | .PART pr =>
    match ct with
    | .Client u =>
      let r := conn_part u srv pr.channels pr.message
      .ok r.1 (.Client r.2.1) r.2.2 []
    | .Registering _ => .panicked .assertFailed
    | .Server => .panicked .unreachableHit
  | .PING pg =>
    if pg.target.isSome ∧ ¬ pg.target.getD [] = sh.hostname then
      .panicked .unimplemented
    else .ok [⟨none, .PONG ⟨sh.hostname, none⟩⟩] ct srv []
  | .PRIVMSG pm =>
    if 1 < pm.targets.length then .panicked .unimplemented
    else match ct with
      | .Client u => .ok [] ct srv (server_send srv u.ident pm.targets)
      | .Registering _ => .panicked .assertFailed
      | .Server => .panicked .unreachableHit
  | .USER ur =>
    if registered ct then
      match ct with
      | .Client u => .ok [⟨none, .ERR_ALREADYREGISTRED ⟨u.ident.nickname⟩⟩] ct srv []
      | _ => .panicked .unreachableHit
    else match add_registration_info ct none (some ur.username) (some ur.realname) with
      | some ct' => try_register sh srv ct'
      | none => .panicked .unreachableHit
  | _ => .ok [] ct srv []

/-- Template engine instance used by concrete witnesses: welcome text is the
nick, yourhost text is the hostname, created text is the timestamp. -/
def sampleEngine : TemplateEngine :=
  ⟨fun _ n => n, fun h _ => h, fun c => c⟩

/-- Shared state instance used by concrete witnesses. -/
def sampleShared : SharedState :=
  ⟨"irc.local".toList, "2017".toList, ⟨"1.0".toList, "IRC Network".toList⟩,
   sampleEngine⟩

/-- Identifier instance used by concrete witnesses. -/
def sampleIdent : UserIdentifier :=
  ⟨"laz".toList, "u".toList, "r".toList, "h".toList⟩

/-- Registration record instance used by concrete witnesses. -/
def sampleReg : Registration :=
  ⟨some "laz".toList, some "u".toList, some "r".toList, "h".toList⟩

/-! ## Theorems -/

theorem paramLoop_diverges (s r : List Char) (hr : (next_token_pair s).2 = r)
    (hne : ¬ r.length = 0) (hc : ¬ r.head? = some ':') :
    ∀ fuel ps, paramLoopFuel s fuel r ps = none := by
  intro fuel
  induction fuel with
  | zero => intro ps; rfl
  | succ n ih =>
    intro ps
    simp only [paramLoopFuel, if_neg hne, if_neg hc, hr]
    exact ih _

theorem requestFromStr_diverges (s r : List Char) (hr : (next_token_pair s).2 = r)
    (hne : ¬ r.length = 0) (hc : ¬ r.head? = some ':') :
    neverReturns s := by
  intro fuel
  simp only [requestFromStrFuel, hr, paramLoop_diverges s r hr hne hc fuel []]

theorem not_roundTrips_of_neverReturns (l : List Char) (h : neverReturns l) :
    ¬ roundTrips l := by
  rintro ⟨fuel, r, hparse, -⟩
  rw [h fuel] at hparse
  exact Option.noConfusion hparse

theorem matchCommand_USER (ps : List (List Char)) :
    matchCommand ("USER".toList) ps =
      if 4 ≤ ps.length then .panicked else .err .NeedMoreParams := by
  simp only [matchCommand]
  rw [if_neg (by decide), if_neg (by decide), if_pos (by decide)]
  simp [verify_at_least_params]

theorem matchCommand_SERVER (ps : List (List Char)) :
    matchCommand ("SERVER".toList) ps =
      if 3 ≤ ps.length then
        (match parseU64 (ps.getD 1 []) with
         | some _ => POutcome.panicked
         | none => .err .ParseIntError)
      else .err .NeedMoreParams := by
  simp only [matchCommand]
  rw [if_neg (by decide), if_neg (by decide), if_neg (by decide),
    if_pos (by decide)]
  simp [verify_at_least_params]

/-- C3: the spec says plain space-delimited parameter tokens are collected in
order and, in particular, parsing "NICK lazau" terminates with nickname
"lazau".  The code disagrees: the parameter loop of Request::from_str calls
next_token on the whole input instead of on the loop's remainder, so the
remainder never changes and the loop runs forever on any line with a plain
parameter; no fuel makes "NICK lazau" return.  The sibling line parser
parse_syntax implements the same loop correctly and yields exactly
["lazau"], confirming the intent. -/
theorem c3_nick_plain_param_loops_forever :
    neverReturns ("NICK lazau".toList) ∧
    parseLine ("NICK lazau\r\n".toList) =
      Except.ok ⟨none, "NICK".toList, ["lazau".toList]⟩ := by
  constructor
  · exact requestFromStr_diverges _ ("lazau".toList) (by decide) (by decide)
      (by decide)
  · rfl

/-- C2 counterexample: "PART #a" is a well-formed canonical line of a
serializer-supported shape (the serializer itself produces it from the
single-channel PART with no message), yet serialize(parse(line)) = line fails
for it: Request::from_str never returns on it, so no parse result exists to
serialize. -/
theorem c2_part_canonical_line_no_round_trip :
    serialize_part ⟨["#a".toList], none⟩ = some ("PART #a".toList) ∧
    ¬ roundTrips ("PART #a".toList) := by
  refine ⟨by decide, not_roundTrips_of_neverReturns _ ?_⟩
  exact requestFromStr_diverges _ ("#a".toList) (by decide) (by decide)
    (by decide)

/-- C2 (amended): serialization of the supported shapes is deterministic and
produces the canonical lines (single-channel PART, PONG, single-target
PRIVMSG, MODE, single-channel JOIN), but round-trip stability fails for every
such line: Request::from_str has no arms for these commands (they are
commented out) and its parameter loop never terminates on the plain
parameters of these canonical lines, so parsing never yields a request. -/
theorem c2_serialize_canonical_but_never_round_trips :
    (serialize_part ⟨["#a".toList], none⟩ = some ("PART #a".toList) ∧
     serialize_pong ⟨"host".toList, none⟩ = "PONG host".toList ∧
     serialize_privmsg ⟨["bob".toList], "hi".toList⟩ =
       some ("PRIVMSG bob hi".toList) ∧
     serialize_mode ⟨"alice".toList, some "+i".toList, none⟩ =
       "MODE alice +i".toList ∧
     serialize_join ⟨.Channels ["#a".toList]⟩ = some ("JOIN #a".toList)) ∧
    (¬ roundTrips ("PART #a".toList) ∧
     ¬ roundTrips ("PONG host".toList) ∧
     ¬ roundTrips ("PRIVMSG bob hi".toList) ∧
     ¬ roundTrips ("MODE alice +i".toList) ∧
     ¬ roundTrips ("JOIN #a".toList)) := by
  refine ⟨⟨by decide, by decide, by decide, by decide, by decide⟩,
    not_roundTrips_of_neverReturns _ ?_, not_roundTrips_of_neverReturns _ ?_,
    not_roundTrips_of_neverReturns _ ?_, not_roundTrips_of_neverReturns _ ?_,
    not_roundTrips_of_neverReturns _ ?_⟩
  · exact requestFromStr_diverges _ ("#a".toList) (by decide) (by decide)
      (by decide)
  · exact requestFromStr_diverges _ ("host".toList) (by decide) (by decide)
      (by decide)
  · exact requestFromStr_diverges _ ("bob hi".toList) (by decide) (by decide)
      (by decide)
  · exact requestFromStr_diverges _ ("alice +i".toList) (by decide) (by decide)
      (by decide)
  · exact requestFromStr_diverges _ ("#a".toList) (by decide) (by decide)
      (by decide)

/-- C8 counterexample: "USER a b c" supplies three parameters, fewer than
four, but parsing it does not fail with NeedMoreParams: the parameter loop
never terminates on plain parameters, so no outcome is ever returned. -/
theorem c8_user_three_params_no_needmoreparams :
    ¬ returnsOutcome ("USER a b c".toList) (.err .NeedMoreParams) := by
  rintro ⟨fuel, h⟩
  rw [requestFromStr_diverges _ ("a b c".toList) (by decide) (by decide)
    (by decide) fuel] at h
  exact Option.noConfusion h

/-- C8 (amended): given a parsed parameter list, the USER arm fails with
NeedMoreParams for fewer than four parameters and never succeeds for any
count (with four or more it reaches the unimplemented mode-field parser and
panics); at the line level the NeedMoreParams error is reachable only when
the parameter text is empty or a ':'-trailing parameter (e.g. a bare
"USER"), because plain space-separated parameters make the parameter loop
run forever, as on "USER a b c". -/
theorem c8_user_arity :
    (∀ ps : List (List Char), ps.length < 4 →
      matchCommand ("USER".toList) ps = .err .NeedMoreParams) ∧
    (∀ ps : List (List Char), 4 ≤ ps.length →
      matchCommand ("USER".toList) ps = .panicked) ∧
    (∀ (ps : List (List Char)) (r : Request),
      ¬ matchCommand ("USER".toList) ps = .ok r) ∧
    (∀ fuel, 1 ≤ fuel →
      requestFromStrFuel fuel ("USER".toList) = some (.err .NeedMoreParams)) ∧
    neverReturns ("USER a b c".toList) := by
  refine ⟨?_, ?_, ?_, ?_, ?_⟩
  · intro ps h
    rw [matchCommand_USER, if_neg (by omega)]
  · intro ps h
    rw [matchCommand_USER, if_pos h]
  · intro ps r
    rw [matchCommand_USER]
    split <;> simp
  · intro fuel hf
    obtain ⟨n, rfl⟩ : ∃ n, fuel = n + 1 := ⟨fuel - 1, by omega⟩
    rfl
  · exact requestFromStr_diverges _ ("a b c".toList) (by decide) (by decide)
      (by decide)

/-- C8 witness: the amended USER-arity facts at concrete inputs. -/
theorem c8_user_arity_witness :
    matchCommand ("USER".toList) ["a".toList] = .err .NeedMoreParams ∧
    matchCommand ("USER".toList)
      ["a".toList, "b".toList, "c".toList, "d".toList] = .panicked ∧
    requestFromStrFuel 1 ("USER".toList) = some (.err .NeedMoreParams) :=
  ⟨c8_user_arity.1 _ (by decide), c8_user_arity.2.1 _ (by decide),
   c8_user_arity.2.2.2.1 1 (by decide)⟩

/-- C9 counterexample: on the line "SERVER name xx info" (non-numeric
hopcount) the claim expects the distinct bad-integer error to be returned;
in fact Request::from_str never returns at all on this line, because its
parameter loop runs forever before the SERVER arm is reached. -/
theorem c9_server_bad_hopcount_never_errors :
    ¬ returnsOutcome ("SERVER name xx info".toList) (.err .ParseIntError) := by
  rintro ⟨fuel, h⟩
  rw [requestFromStr_diverges _ ("name xx info".toList) (by decide) (by decide)
    (by decide) fuel] at h
  exact Option.noConfusion h

/-- C9 (amended): a successful parse of a well-formed SERVER command is
indeed unreachable, but for two distinct reasons.  At the line level
Request::from_str never returns on a SERVER line with space-separated
parameters (the parameter loop runs forever), so neither the panic nor the
bad-integer error is observable there.  At the arm level, given at least
three parsed parameters, a numeric hopcount reaches the unimplemented token
field and panics while a non-numeric hopcount returns the bad-integer error,
and no parameter list makes the SERVER arm succeed. -/
theorem c9_server_success_unreachable :
    neverReturns ("SERVER name 2 info".toList) ∧
    (∀ ps : List (List Char), 3 ≤ ps.length → (parseU64 (ps.getD 1 [])).isSome →
      matchCommand ("SERVER".toList) ps = .panicked) ∧
    (∀ ps : List (List Char), 3 ≤ ps.length → parseU64 (ps.getD 1 []) = none →
      matchCommand ("SERVER".toList) ps = .err .ParseIntError) ∧
    (∀ (ps : List (List Char)) (r : Request),
      ¬ matchCommand ("SERVER".toList) ps = .ok r) := by
  refine ⟨?_, ?_, ?_, ?_⟩
  · exact requestFromStr_diverges _ ("name 2 info".toList) (by decide)
      (by decide) (by decide)
  · intro ps h hs
    rw [matchCommand_SERVER, if_pos h]
    obtain ⟨v, hv⟩ := Option.isSome_iff_exists.mp hs
    rw [hv]
  · intro ps h hn
    rw [matchCommand_SERVER, if_pos h, hn]
  · intro ps r
    rw [matchCommand_SERVER]
    split
    · split <;> simp
    · simp

/-- C9 witness: the amended SERVER-arm facts at concrete inputs. -/
theorem c9_server_success_unreachable_witness :
    matchCommand ("SERVER".toList)
      ["name".toList, "2".toList, "info".toList] = .panicked ∧
    matchCommand ("SERVER".toList)
      ["name".toList, "xx".toList, "info".toList] = .err .ParseIntError :=
  ⟨c9_server_success_unreachable.2.1 _ (by decide) (by decide),
   c9_server_success_unreachable.2.2.1 _ (by decide) (by decide)⟩

theorem parse_after_pfx_ok_pfx (pfx : Option (List Char)) (rem : List Char)
    (stx : RawMessage) (h : parse_after_pfx pfx rem = .ok stx) :
    stx.pfx = pfx := by
  unfold parse_after_pfx at h
  by_cases hlen : rem.length < 1
  · rw [if_pos hlen] at h
    exact Except.noConfusion h
  · rw [if_neg hlen] at h
    rcases hnt : next_token rem with ⟨tok, o⟩
    rw [hnt] at h
    cases o with
    | none =>
      cases h
      rfl
    | some rest =>
      cases h
      rfl

/-- C4 counterexample: on the spec's own example line the parser stores the
prefix WITH the leading colon, so the prefix is ":lazau" and not "lazau"
(the repository's test `full` in src/parser/mod.rs expects ":lazau" too). -/
theorem c4_example_line_pfx_has_colon :
    parseLine (":lazau CONNECT server server2 :server 3 5 6\r\n".toList) =
      Except.ok ⟨some (":lazau".toList), "CONNECT".toList,
        ["server".toList, "server2".toList, "server 3 5 6".toList]⟩ ∧
    ¬ (some (":lazau".toList) = some ("lazau".toList)) :=
  ⟨rfl, by decide⟩

/-- C4 (amended): for every line that starts with ':', parse_syntax stores
the prefix INCLUDING the leading colon (it stores remainder[0..idx], not
remainder[1..idx]): every stored prefix starts with ':'; and parsing
":lazau CONNECT server server2 :server 3 5 6\r\n" yields prefix ":lazau",
command "CONNECT", and params ["server", "server2", "server 3 5 6"]. -/
theorem c4_pfx_stored_with_colon :
    (∀ (input : List Char) (stx : RawMessage) (p : List Char),
      parseLine input = .ok stx → stx.pfx = some p → p.head? = some ':') ∧
    parseLine (":lazau CONNECT server server2 :server 3 5 6\r\n".toList) =
      Except.ok ⟨some (":lazau".toList), "CONNECT".toList,
        ["server".toList, "server2".toList, "server 3 5 6".toList]⟩ := by
  constructor
  · intro input stx p hok hpfx
    unfold parseLine at hok
    by_cases h1 : input.length < 2 ∨ 512 < input.length
    · rw [if_pos h1] at hok
      exact Except.noConfusion hok
    rw [if_neg h1] at hok
    by_cases h2 : ['\r', '\n'].isSuffixOf input
    · rw [if_neg (not_not_intro h2)] at hok
      by_cases h3 : (trim_right input).head? = some ':'
      · rw [if_pos h3] at hok
        rcases hrem : trim_right input with - | ⟨c, cs⟩
        · rw [hrem] at h3
          exact Option.noConfusion h3
        · rw [hrem] at h3 hok
          have hc : c = ':' := by simpa using h3
          subst hc
          have hnt : next_token (':' :: cs) =
              (':' :: (next_token cs).1, (next_token cs).2) := by
            simp [next_token]
          rw [hnt] at hok
          rcases ho : (next_token cs).2 with - | rest
          · rw [ho] at hok
            exact Except.noConfusion hok
          · rw [ho] at hok
            have hp := parse_after_pfx_ok_pfx _ _ _ hok
            rw [hpfx] at hp
            injection hp with hp
            rw [hp]
            rfl
      · rw [if_neg h3] at hok
        have hp := parse_after_pfx_ok_pfx _ _ _ hok
        rw [hpfx] at hp
        exact Option.noConfusion hp
    · rw [if_pos (by simpa using h2)] at hok
      exact Except.noConfusion hok
  · rfl

/-- C4 witness: the general colon-keeping fact applied to the example line
and its parse result. -/
theorem c4_pfx_stored_with_colon_witness : (":lazau".toList).head? = some ':' :=
  c4_pfx_stored_with_colon.1
    (":lazau CONNECT server server2 :server 3 5 6\r\n".toList)
    ⟨some (":lazau".toList), "CONNECT".toList,
      ["server".toList, "server2".toList, "server 3 5 6".toList]⟩
    (":lazau".toList) rfl rfl

theorem crlf_scan_some_spec (src : List Nat) :
    ∀ (tail : List Nat) (pos p : Nat), src.drop pos = tail →
      crlf_scan src pos tail = some p →
      pos ≤ p ∧ p < src.length ∧
        (1 < p ∧ src.getD p 0 = 10 ∧ src.getD (p - 1) 0 = 13) ∧
        (∀ q, pos ≤ q → q < p →
          ¬ (1 < q ∧ src.getD q 0 = 10 ∧ src.getD (q - 1) 0 = 13)) := by
  intro tail
  induction tail with
  | nil =>
    intro pos p _ h
    exact Option.noConfusion h
  | cons c rest ih =>
    intro pos p hdrop h
    have hlen : pos < src.length := by
      have hl := congrArg List.length hdrop
      rw [List.length_drop] at hl
      simp only [List.length_cons] at hl
      omega
    have hget : src.getD pos 0 = c := by
      have h0 := List.getElem?_drop src pos 0
      rw [hdrop] at h0
      simp only [List.getElem?_cons_zero, Nat.add_zero] at h0
      rw [List.getD_eq_getElem?_getD, ← h0]
      rfl
    have hdrop' : src.drop (pos + 1) = rest := by
      have h1 : (src.drop pos).drop 1 = src.drop (pos + 1) := by
        rw [List.drop_drop]
      rw [← h1, hdrop]
      rfl
    rw [crlf_scan] at h
    by_cases hcond : 1 < pos ∧ c = 10 ∧ src.getD (pos - 1) 0 = 13
    · rw [if_pos hcond] at h
      injection h with h
      subst h
      refine ⟨Nat.le_refl _, hlen,
        ⟨hcond.1, by rw [hget]; exact hcond.2.1, hcond.2.2⟩, ?_⟩
      intro q hq1 hq2
      omega
    · rw [if_neg hcond] at h
      obtain ⟨hle, hplen, hcondp, hall⟩ := ih (pos + 1) p hdrop' h
      refine ⟨by omega, hplen, hcondp, ?_⟩
      intro q hq1 hq2
      by_cases hqpos : q = pos
      · subst hqpos
        intro hcq
        exact hcond ⟨hcq.1, by rw [← hget]; exact hcq.2.1, hcq.2.2⟩
      · exact hall q (by omega) hq2

theorem crlf_scan_none_spec (src : List Nat) :
    ∀ (tail : List Nat) (pos : Nat), src.drop pos = tail →
      crlf_scan src pos tail = none →
      ∀ q, pos ≤ q → q < src.length →
        ¬ (1 < q ∧ src.getD q 0 = 10 ∧ src.getD (q - 1) 0 = 13) := by
  intro tail
  induction tail with
  | nil =>
    intro pos hdrop _ q hq1 hq2
    have hlp : src.length ≤ pos := by
      have hl := congrArg List.length hdrop
      rw [List.length_drop] at hl
      simp only [List.length_nil] at hl
      omega
    intro _
    omega
  | cons c rest ih =>
    intro pos hdrop h q hq1 hq2
    have hget : src.getD pos 0 = c := by
      have h0 := List.getElem?_drop src pos 0
      rw [hdrop] at h0
      simp only [List.getElem?_cons_zero, Nat.add_zero] at h0
      rw [List.getD_eq_getElem?_getD, ← h0]
      rfl
    have hdrop' : src.drop (pos + 1) = rest := by
      have h1 : (src.drop pos).drop 1 = src.drop (pos + 1) := by
        rw [List.drop_drop]
      rw [← h1, hdrop]
      rfl
    rw [crlf_scan] at h
    by_cases hcond : 1 < pos ∧ c = 10 ∧ src.getD (pos - 1) 0 = 13
    · rw [if_pos hcond] at h
      exact Option.noConfusion h
    · rw [if_neg hcond] at h
      by_cases hqpos : q = pos
      · subst hqpos
        intro hcq
        exact hcond ⟨hcq.1, by rw [← hget]; exact hcq.2.1, hcq.2.2⟩
      · exact ih (pos + 1) hdrop' h q (by omega) hq2

/-- C5 (amended): the decoder does not look for every CRLF — its scan guard
`pos > 1` only detects a line feed at index at least 2 preceded by a carriage
return, i.e. a line with at least one byte before its CRLF.  When no such
guarded CRLF exists (including a buffer whose only CRLF starts at index 0),
nothing is consumed and need-more-data is signalled; when the first one is
found at index p, the bytes before it (which may include an undetected CRLF
at the buffer start) are removed and returned and the remainder stays in the
buffer. -/
theorem c5_decode_frames_at_guarded_crlf (src : List Nat) :
    (crlf_pos src = none →
      codec_decode src = (.needMore, src) ∧
      ∀ q, q < src.length →
        ¬ (1 < q ∧ src.getD q 0 = 10 ∧ src.getD (q - 1) 0 = 13)) ∧
    (∀ p, crlf_pos src = some p →
      (1 < p ∧ src.getD p 0 = 10 ∧ src.getD (p - 1) 0 = 13) ∧
      p < src.length ∧
      (∀ q, q < p → ¬ (1 < q ∧ src.getD q 0 = 10 ∧ src.getD (q - 1) 0 = 13)) ∧
      codec_decode src = (.line (src.take (p - 1)), src.drop (p + 1))) := by
  constructor
  · intro h
    constructor
    · unfold codec_decode
      rw [h]
    · intro q hq
      exact crlf_scan_none_spec src src 0 rfl h q (Nat.zero_le _) hq
  · intro p h
    obtain ⟨-, hplen, hcond, hall⟩ := crlf_scan_some_spec src src 0 p rfl h
    refine ⟨hcond, hplen, fun q hq => hall q (Nat.zero_le _) hq, ?_⟩
    have hd : codec_decode src =
        (.line ((src.take (p + 1)).take (p - 1)), src.drop (p + 1)) := by
      unfold codec_decode
      rw [h]
    rw [hd, List.take_take, Nat.min_eq_left (by omega)]

/-- C5 witness: the framing theorem applied to the concrete buffer
"a\r\n" (bytes 97 13 10): the CRLF is found at index 2, the byte before it
is returned and the buffer is drained. -/
theorem c5_decode_frames_witness :
    codec_decode [97, 13, 10] = (DecodeOut.line [97], []) := by
  have h := ((c5_decode_frames_at_guarded_crlf [97, 13, 10]).2 2 (by decide)).2.2.2
  simpa using h

/-- C5 counterexample: the buffer "\r\n" holds a CRLF starting at position 0
(an empty line), yet the decoder consumes nothing and signals need-more-data,
contradicting the claim that a CRLF at position 0 is located and framed. -/
theorem c5_crlf_at_start_not_framed :
    [13, 10].getD 0 0 = 13 ∧ [13, 10].getD 1 0 = 10 ∧
    codec_decode [13, 10] = (DecodeOut.needMore, [13, 10]) :=
  ⟨rfl, rfl, rfl⟩

/-- C1: the spec says a PART or PRIVMSG received while the connection is
Registering yields a single NOTREGISTERED reply and no panic, as JOIN and
MODE do via the verify_registered! macro.  The PART and PRIVMSG arms skip
that macro: PART immediately calls get_user, whose
assert!(self.registered()) fails and panics, and PRIVMSG panics on
unimplemented!() for multiple targets or on get_user's assert otherwise. -/
theorem c1_part_privmsg_panic_while_registering :
    ∀ (sh : SharedState) (srv : ServerState) (reg : Registration)
      (pfx : Option (List Char)) (pr : Requests.Part) (pm : Requests.Privmsg),
      process_irc_message sh srv (.Registering reg) ⟨pfx, .PART pr⟩ =
        .panicked .assertFailed ∧
      process_irc_message sh srv (.Registering reg) ⟨pfx, .PRIVMSG pm⟩ =
        .panicked
          (if 1 < pm.targets.length then .unimplemented else .assertFailed) := by
  intro sh srv reg pfx pr pm
  constructor
  · rfl
  · by_cases h : 1 < pm.targets.length
    · simp [process_irc_message, h]
    · simp [process_irc_message, h]

/-- C6: whenever all three of nickname/username/realname are present in the
Registering record and the registry does not already hold the nickname,
try_register transitions the connection to Client and returns exactly the
four-message welcome burst RPL_WELCOME, RPL_YOURHOST, RPL_CREATED,
RPL_MYINFO, in this order, while the registry gains exactly the new user. -/
theorem c6_registration_success_welcome_burst :
    ∀ (sh : SharedState) (srv : ServerState) (reg : Registration)
      (n u rn : List Char),
      reg.nickname = some n → reg.username = some u → reg.realname = some rn →
      nickInUse srv n = false →
      try_register sh srv (.Registering reg) =
        .ok
          [⟨none, .RPL_WELCOME
             ⟨n, sh.template_engine.renderWelcome sh.configuration.network_name n⟩⟩,
           ⟨none, .RPL_YOURHOST
             ⟨n, sh.template_engine.renderYourHost sh.hostname sh.configuration.version⟩⟩,
           ⟨none, .RPL_CREATED ⟨n, sh.template_engine.renderCreated sh.created⟩⟩,
           ⟨none, .RPL_MYINFO ⟨⟩⟩]
          (.Client (User.new ⟨n, u, rn, reg.hostname⟩))
          { srv with users := srv.users ++ [⟨n, u, rn, reg.hostname⟩] } [] := by
  intro sh srv reg n u rn hn hu hr hnick
  simp [try_register, registered, hn, hu, hr, server_add_user, hnick]

/-- C6 witness: the success theorem at a concrete shared state, empty
registry and fully-populated registration record. -/
theorem c6_registration_success_witness :
    try_register sampleShared ⟨[], []⟩ (.Registering sampleReg) =
      .ok
        [⟨none, .RPL_WELCOME ⟨"laz".toList, "laz".toList⟩⟩,
         ⟨none, .RPL_YOURHOST ⟨"laz".toList, "irc.local".toList⟩⟩,
         ⟨none, .RPL_CREATED ⟨"laz".toList, "2017".toList⟩⟩,
         ⟨none, .RPL_MYINFO ⟨⟩⟩]
        (.Client (User.new sampleIdent)) ⟨[sampleIdent], []⟩ [] :=
  c6_registration_success_welcome_burst sampleShared ⟨[], []⟩ sampleReg
    ("laz".toList) ("u".toList) ("r".toList) rfl rfl rfl rfl

/-- C7: when the registry rejects the registration because the nickname is
already claimed, try_register returns exactly one NICKNAMEINUSE reply, the
connection stays Registering with the very same registration record
(nickname, username, realname, hostname all unchanged), and the registry is
untouched, so the user can retry with only a new NICK. -/
theorem c7_registration_rejected_preserves_record :
    ∀ (sh : SharedState) (srv : ServerState) (reg : Registration)
      (n u rn : List Char),
      reg.nickname = some n → reg.username = some u → reg.realname = some rn →
      nickInUse srv n = true →
      try_register sh srv (.Registering reg) =
        .ok [⟨none, .ERR_NICKNAMEINUSE ⟨n⟩⟩] (.Registering reg) srv [] := by
  intro sh srv reg n u rn hn hu hr hnick
  simp [try_register, registered, hn, hu, hr, server_add_user, hnick]

/-- C7 witness: the rejection theorem at a registry that already holds the
nickname "laz". -/
theorem c7_registration_rejected_witness :
    try_register sampleShared ⟨[sampleIdent], []⟩ (.Registering sampleReg) =
      .ok [⟨none, .ERR_NICKNAMEINUSE ⟨"laz".toList⟩⟩]
        (.Registering sampleReg) ⟨[sampleIdent], []⟩ [] :=
  c7_registration_rejected_preserves_record sampleShared ⟨[sampleIdent], []⟩
    sampleReg ("laz".toList) ("u".toList) ("r".toList) rfl rfl rfl rfl

/-- C10: a NICK command reaching a connection already in Client state hits
unimplemented!() and panics instead of returning any reply, so the
Registering-to-Client transition cannot be re-entered through NICK. -/
theorem c10_nick_when_registered_panics :
    ∀ (sh : SharedState) (srv : ServerState) (u : User)
      (pfx : Option (List Char)) (nr : Requests.Nick),
      process_irc_message sh srv (.Client u) ⟨pfx, .NICK nr⟩ =
        .panicked .unimplemented := by
  intro sh srv u pfx nr
  rfl

end IrcServer
